import Mathlib

/-!
Shallow embedding of the credential and session lifecycle subsystem of the
`bako110/backend` repository (`app/auth/api.py`, `app/auth/jwt_handler.py`,
`app/auth/dependencies.py`, `app/auth/models.py`).

Conventions of the embedding:
* the SQL `users` table is a `List User`; `SELECT ... .first()` is `List.find?`;
* a JWT is a `Token`: its payload (`Claims`) together with the signing key it
  was signed with; `jwt.decode(t, key)` succeeds iff the keys agree and the
  `exp` claim has not passed (python-jose raises `JWTError` on a signature
  mismatch and `ExpiredSignatureError`, a `JWTError`, when `exp < now`);
* timestamps are `Nat` seconds; `time.time() > e` is `e < now`;
* Python truthiness of an optional string (`if not x`) is `pyTruthy`;
* the in-memory `reset_codes` dict is an insertion-ordered association list
  (Python dicts iterate in insertion order; assigning to an existing key keeps
  its position, assigning a fresh key appends);
* an `HTTPException(status_code=s, detail=d)` is `HTTPError.mk s d`; handlers
  return `Except HTTPError α`.
-/

/-- Truthiness of a Python optional string: `None` and `""` are falsy. -/
def pyTruthy : Option String → Bool
  | none => false
  | some s => s ≠ ""

/-- HTTP error as raised by `HTTPException(status_code, detail)`. -/
structure HTTPError where
  status : Nat
  detail : String
  deriving DecidableEq, Repr

/-- Row of the `users` table (`app/auth/models.py`, class `User`). -/
structure User where
  id : Nat
  email : Option String
  phone : Option String
  hashed_password : String
  first_name : String
  last_name : String
  role : String
  deriving DecidableEq, Repr

/-- JWT payload fields used by this subsystem: `sub`, `role`, `user_id`, `exp`. -/
structure Claims where
  sub : Option String
  role : Option String
  user_id : Option Nat
  exp : Nat
  deriving DecidableEq, Repr

/-- A signed JWT: the encoded payload plus the key it was signed with.
The signature of a real JWT verifies under `key` iff the token was produced
by `jwt.encode` with that same `key`, which is what the `key` field records. -/
structure Token where
  claims : Claims
  key : String
  deriving DecidableEq, Repr

/-- Modelled from the spec: the Password Hasher (`app/auth/password.py` is not in
the source tree; spec section 4.1 "hash(plaintext) -> digest", "verify(plaintext,
digest) -> bool: true iff plaintext, when hashed with the salt embedded in digest,
equals digest"). The per-call salt is omitted: `hash_password` is an injective
tagging and `verify_password` the exact re-hash comparison. -/
def hash_password (plaintext : String) : String := "bcrypt$" ++ plaintext

/-- Modelled from the spec: the Password Hasher verify side (see `hash_password`). -/
def verify_password (plaintext digest : String) : Bool := digest == hash_password plaintext

/-- Model of the `jwt.encode` / `jwt.decode` pair: decoding with `key` at time `now` yields the
payload iff the signature matches (same key) and `exp` has not passed; python-jose
raises `JWTError` (resp. `ExpiredSignatureError <: JWTError`) otherwise, which all
callers in this code base catch, so decoding is modelled as an `Option`. -/
def jwtDecode (t : Token) (key : String) (now : Nat) : Option Claims :=
  if t.key ≠ key then none
  else if t.claims.exp < now then none
  else some t.claims

/-- Function `create_access_token` (`app/auth/jwt_handler.py` lines 10-29): copy the data,
set `exp = now + ttl`, and — when a `user_id` key is present — overwrite `sub`
with `str(user_id)`; then sign with the process key. -/
def create_access_token (data : Claims) (now ttl : Nat) (key : String) : Token :=
  let sub := match data.user_id with
    | some uid => some (toString uid)
    | none => data.sub
  { claims := { data with exp := now + ttl, sub := sub }, key := key }

/-- Function `decode_access_token` (`app/auth/jwt_handler.py` lines 32-54): decode and
verify; on `JWTError` return `None`; if the `sub` field is absent (or falsy)
return `None`; otherwise return the payload. -/
def decode_access_token (t : Token) (now : Nat) (key : String) : Option Claims :=
  match jwtDecode t key now with
  | none => none
  | some payload => if pyTruthy payload.sub then some payload else none

/-- Function `get_user_by_identifier` (`app/auth/api.py` lines 40-50): first user whose
`email` or `phone` column equals the identifier. -/
def get_user_by_identifier (db : List User) (identifier : String) : Option User :=
  db.find? (fun u => u.email == some identifier || u.phone == some identifier)

/-- Result of `POST /auth/login`. -/
inductive LoginResult
  | ok (token : Token) (user : User)
  | err (e : HTTPError)
  deriving DecidableEq, Repr

/-- Handler `login` (`app/auth/api.py` lines 131-166): resolve the user by identifier;
one combined check `not db_user or not verify_password(...)` raises the single
401 "Identifiant ou mot de passe incorrect"; on success issue a token with
`sub = db_user.email if db_user.email else db_user.phone`, `role`, `user_id`. -/
def login (db : List User) (identifier pw : String) (now ttl : Nat) (key : String) :
    LoginResult :=
  match get_user_by_identifier db identifier with
  | none => .err ⟨401, "Identifiant ou mot de passe incorrect"⟩
  | some u =>
    if verify_password pw u.hashed_password then
      let token_subject := if pyTruthy u.email then u.email else u.phone
      .ok (create_access_token
            { sub := token_subject, role := some u.role, user_id := some u.id, exp := 0 }
            now ttl key) u
    else .err ⟨401, "Identifiant ou mot de passe incorrect"⟩

/-- Input of `POST /auth/register` (`app/auth/schemas.py`, `UserRegister`),
after schema validation. -/
structure RegisterInput where
  email : Option String
  phone : Option String
  password : String
  first_name : String
  last_name : String
  deriving DecidableEq, Repr

/-- Body of the `try:` block of `register` (`app/auth/api.py` lines 56-123):
require an identifier, reject a duplicate email then a duplicate phone with
`HTTPException(400, ...)`, else hash the password and insert the new row
(the fresh primary key is the `newId` parameter). -/
def register_inner (db : List User) (inp : RegisterInput) (newId : Nat) :
    Except HTTPError (List User × Nat) :=
  if !pyTruthy inp.email && !pyTruthy inp.phone then
    .error ⟨400, "Email ou téléphone requis"⟩
  else if pyTruthy inp.email && db.any (fun u => u.email == inp.email) then
    .error ⟨400, "Email déjà enregistré"⟩
  else if pyTruthy inp.phone && db.any (fun u => u.phone == inp.phone) then
    .error ⟨400, "Téléphone déjà enregistré"⟩
  else
    .ok (db ++ [{ id := newId, email := inp.email, phone := inp.phone,
                  hashed_password := hash_password inp.password,
                  first_name := inp.first_name, last_name := inp.last_name,
                  role := "user" }], newId)

/-- Handler `register` (`app/auth/api.py` lines 54-127): the whole handler body runs
inside `try: ... except Exception as e: raise HTTPException(500, f"Erreur
interne : {str(e)}")` with NO `except HTTPException: raise` clause before it,
so the 400 `HTTPException`s raised inside the `try` are themselves caught
(`HTTPException` is an `Exception`) and re-raised as 500s; `str(e)` of an
`HTTPException(s, d)` renders its status and detail. -/
def register (db : List User) (inp : RegisterInput) (newId : Nat) :
    Except HTTPError (List User × Nat) :=
  match register_inner db inp newId with
  | .ok r => .ok r
  | .error e => .error ⟨500, "Erreur interne : " ++ toString e.status ++ ": " ++ e.detail⟩

/-- Handler `logout` (`app/auth/api.py` lines 170-176): add the bearer token to the
process-wide `blacklist` set (idempotent set insert) and return a message. -/
def logout (bl : List Token) (t : Token) : List Token × String :=
  (if t ∈ bl then bl else bl ++ [t], "Déconnecté avec succès")

/-- Dependency `get_current_user` (`app/auth/dependencies.py` lines 24-81): decode the
token (401 on `JWTError`), require a truthy `sub` (401), require a well-formed
`user_id` (401), look the user up BY PRIMARY KEY `id` (401 if absent) and
return it. Note: the function has no access to the logout `blacklist`; it
depends only on the token, the clock, the key and the users table. -/
def get_current_user (db : List User) (token : Token) (now : Nat) (key : String) :
    Except HTTPError User :=
  match jwtDecode token key now with
  | none => .error ⟨401, "Token invalide ou expiré"⟩
  | some payload =>
    if !pyTruthy payload.sub then
      .error ⟨401, "Token invalide : \x27sub\x27 manquant"⟩
    else match payload.user_id with
    | none => .error ⟨401, "Token invalide : \x27user_id\x27 mal formé"⟩
    | some uid =>
      match db.find? (fun u => u.id == uid) with
      | none => .error ⟨401, "Utilisateur non trouvé"⟩
      | some u => .ok u

/-- One value of the `reset_codes` dict (`app/auth/api.py` line 193:
`{"code": ..., "expires": ..., "verified": ...}`). -/
structure Entry where
  code : String
  expires : Nat
  verified : Bool
  deriving DecidableEq, Repr

/-- The `reset_codes` dict: insertion-ordered association list keyed by
identifier. -/
abbrev Registry := List (String × Entry)

/-- Assignment `d[k] = v` on a Python dict: update in place if the key exists
(keeping its position in iteration order), else append at the end. -/
def dictSet (r : Registry) (k : String) (v : Entry) : Registry :=
  if r.any (fun p => p.1 == k) then
    r.map (fun p => if p.1 == k then (k, v) else p)
  else r ++ [(k, v)]

/-- Deletion `d.pop(k, None)` on a Python dict: drop the binding of `k` if present. -/
def dictPop (r : Registry) (k : String) : Registry :=
  r.filter (fun p => p.1 != k)

/-- Handler `forgot_password` (`app/auth/api.py` lines 182-212): 404 when the
identifier resolves to no user; otherwise store
`{code, expires = now + 600, verified = False}` under the identifier,
overwriting any prior attempt, and send the code out of band. The random
code produced by `generate_verification_code` (whose module is not in the
source tree) is the `code` parameter. -/
def forgot_password (db : List User) (r : Registry) (identifier code : String)
    (now : Nat) : Registry × Except HTTPError String :=
  match get_user_by_identifier db identifier with
  | none => (r, .error ⟨404, "Utilisateur non trouvé"⟩)
  | some _ =>
    (dictSet r identifier { code := code, expires := now + 600, verified := false },
     .ok "Code de réinitialisation envoyé")

/-- Handler `verify_code` (`app/auth/api.py` lines 215-245): scan the dict in
iteration order for the first entry whose `code` equals the supplied code
(`if not found_identifier` also treats a falsy — empty — identifier key as
not found); 400 "Code invalide" when none matches; if the match has expired
(`time.time() > expires`) pop it and fail 400 "Code expiré"; else set its
`verified` flag and return the identifier. -/
def verify_code (r : Registry) (code : String) (now : Nat) :
    Registry × Except HTTPError String :=
  match r.find? (fun p => p.2.code == code) with
  | none => (r, .error ⟨400, "Code invalide"⟩)
  | some (id, e) =>
    if id = "" then (r, .error ⟨400, "Code invalide"⟩)
    else if e.expires < now then (dictPop r id, .error ⟨400, "Code expiré"⟩)
    else (dictSet r id { e with verified := true }, .ok id)

/-- Handler `reset_password` (`app/auth/api.py` lines 248-287): scan the dict in
iteration order for the first entry with `verified` set (400 "Aucun code
vérifié trouvé..." when none, a falsy identifier key included); if that
entry has expired pop it and fail 400 "Code expiré"; resolve the user for
the identifier (404, leaving the attempt in place); on success store the new
password hash on the user row, then pop the consumed attempt. -/
def reset_password (r : Registry) (db : List User) (newPassword : String)
    (now : Nat) : Registry × List User × Except HTTPError String :=
  match r.find? (fun p => p.2.verified) with
  | none =>
    (r, db, .error ⟨400, "Aucun code vérifié trouvé. Veuillez d\x27abord vérifier votre code."⟩)
  | some (id, e) =>
    if id = "" then
      (r, db, .error ⟨400, "Aucun code vérifié trouvé. Veuillez d\x27abord vérifier votre code."⟩)
    else if e.expires < now then (dictPop r id, db, .error ⟨400, "Code expiré"⟩)
    else match get_user_by_identifier db id with
    | none => (r, db, .error ⟨404, "Utilisateur non trouvé"⟩)
    | some u =>
      (dictPop r id,
       db.map (fun v => if v.id == u.id then
         { v with hashed_password := hash_password newPassword } else v),
       .ok "Mot de passe réinitialisé avec succès")

/-- Sweep `cleanup_expired_codes` (`app/auth/api.py` lines 291-301): drop every
entry with `current_time > expires`; return how many were dropped. -/
def cleanup_expired_codes (r : Registry) (now : Nat) : Registry × Nat :=
  ((r.filter (fun p => !(decide (p.2.expires < now)))),
   (r.filter (fun p => decide (p.2.expires < now))).length)

/-- Handler `get_me` (`app/auth/api.py` lines 304-351), given the decoded token
payload its dependency provides: reject a blacklisted bearer token with 401;
look the user up with `get_user_by_identifier(db, token["sub"])` — i.e. the
`sub` claim is interpreted as an email-or-phone identifier — and fail 404
"Utilisateur introuvable" when nothing matches; a missing `sub` key would be
a `KeyError`, caught by the handler as a 500. -/
def get_me (bl : List Token) (db : List User) (t : Token) (payload : Claims) :
    Except HTTPError User :=
  if t ∈ bl then .error ⟨401, "Token invalide (déconnecté)"⟩
  else match payload.sub with
  | none => .error ⟨500, "Erreur interne : \x27sub\x27"⟩
  | some s =>
    match get_user_by_identifier db s with
    | none => .error ⟨404, "Utilisateur introuvable"⟩
    | some u => .ok u

/-- States of the `reset_codes` registry reachable, from the empty dict, by
any sequence of the four operations that touch it (`forgot_password`,
`verify_code`, `reset_password`, `cleanup_expired_codes`), against a fixed
users table, with arbitrary identifiers, codes and clock readings. -/
inductive Reachable (db : List User) : Registry → Prop
  | init : Reachable db []
  | forgot (r : Registry) (identifier code : String) (now : Nat) :
      Reachable db r → Reachable db (forgot_password db r identifier code now).1
  | verify (r : Registry) (code : String) (now : Nat) :
      Reachable db r → Reachable db (verify_code r code now).1
  | reset (r : Registry) (newPassword : String) (now : Nat) :
      Reachable db r → Reachable db (reset_password r db newPassword now).1
  | sweep (r : Registry) (now : Nat) :
      Reachable db r → Reachable db (cleanup_expired_codes r now).1

/-! Concrete fixtures used by the claim theorems. -/

/-- A stored account with email `a@x.com`, id 1. -/
def uA : User :=
  { id := 1, email := some "a@x.com", phone := none,
    hashed_password := hash_password "secret123",
    first_name := "Alice", last_name := "Ax", role := "user" }

/-- A stored account with email `b@x.com`, id 2. -/
def uB : User :=
  { id := 2, email := some "b@x.com", phone := none,
    hashed_password := hash_password "hunter2",
    first_name := "Bob", last_name := "Bx", role := "user" }

/-- A stored account with email `c@x.com`, id 3. -/
def uC : User :=
  { id := 3, email := some "c@x.com", phone := none,
    hashed_password := hash_password "pw",
    first_name := "Cleo", last_name := "Cx", role := "user" }

/-- Users table holding only `uA`. -/
def dbA : List User := [uA]

/-- Users table holding `uA` and `uB`. -/
def dbAB : List User := [uA, uB]

/-- Users table holding only `uC`. -/
def dbC : List User := [uC]

/-- The token `login dbA "a@x.com" "secret123" 0 3600 "k"` issues. -/
def tA : Token :=
  { claims := { sub := some "1", role := some "user", user_id := some 1, exp := 3600 },
    key := "k" }

/-- The token `login dbC "c@x.com" "pw" 0 3600 "k"` issues. -/
def tC : Token :=
  { claims := { sub := some "3", role := some "user", user_id := some 3, exp := 3600 },
    key := "k" }

/-- Claim C1 (evaluation at the failing input): `login` resolves account `uA`
whose email is `a@x.com`, but the token it returns decodes to a `sub` claim
equal to `"1"` — the decimal string of the numeric account id, written over the
identifier by `create_access_token` — and not to the email. -/
theorem login_token_sub_is_user_id_not_identifier :
    login dbA "a@x.com" "secret123" 0 3600 "k" = .ok tA uA ∧
    (decode_access_token tA 100 "k").map Claims.sub = some (some "1") ∧
    (some "1" : Option String) ≠ some "a@x.com" := by
  refine ⟨by decide, by decide, by decide⟩

/-- Claim C2 (evaluation at the failing input): registering a second time with
the already-stored email `a@x.com` (and a fresh phone) does raise the 400
duplicate-email `HTTPException` inside the handler, but the catch-all
clause of the handler `except Exception` swallows it and re-raises it as a 500 internal
error, so the caller sees status 500, not 400. -/
theorem register_duplicate_email_maps_to_500 :
    register dbA
      { email := some "a@x.com", phone := some "+22912345678",
        password := "pw123456", first_name := "Ann", last_name := "Az" } 2 =
      .error ⟨500, "Erreur interne : 400: Email déjà enregistré"⟩ ∧
    register_inner dbA
      { email := some "a@x.com", phone := some "+22912345678",
        password := "pw123456", first_name := "Ann", last_name := "Az" } 2 =
      .error ⟨400, "Email déjà enregistré"⟩ ∧
    (500 : Nat) ≠ 400 := by
  refine ⟨rfl, rfl, by decide⟩

/-- Claim C3 (evaluation at the failing input): the token issued by `login`
for user `uC`, once passed to `logout` (so it is in the blacklist), is still
accepted by `get_current_user` — the dependency every protected endpoint uses —
at a time well before its expiry, because `get_current_user` never consults the
blacklist; only the inline check of `get_me` rejects it. -/
theorem revoked_token_accepted_by_get_current_user :
    login dbC "c@x.com" "pw" 0 3600 "k" = .ok tC uC ∧
    (logout [] tC).1 = [tC] ∧
    tC ∈ (logout [] tC).1 ∧
    get_current_user dbC tC 100 "k" = .ok uC ∧
    get_me (logout [] tC).1 dbC tC tC.claims = .error ⟨401, "Token invalide (déconnecté)"⟩ := by
  refine ⟨by decide, by decide, by decide, rfl, rfl⟩

/-- A token whose signature does not verify under key `"k"` (signed with a
different key), unexpired at time 100, `sub` present. -/
def tBadSig : Token :=
  { claims := { sub := some "s", role := none, user_id := none, exp := 1000 },
    key := "other" }

/-- A token correctly signed under `"k"` but expired at time 100, `sub` present. -/
def tExpired : Token :=
  { claims := { sub := some "s", role := none, user_id := none, exp := 50 },
    key := "k" }

/-- A token correctly signed under `"k"`, unexpired at time 100, with no `sub`. -/
def tNoSub : Token :=
  { claims := { sub := none, role := none, user_id := none, exp := 1000 },
    key := "k" }

/-- Claim C4 counterexample: three concrete inputs, each failing verification
for exactly one of the three causes (invalid signature / expired / missing
`sub`), all produce the very same returned value `none` — the failure causes
are not distinguishable in the returned value. -/
theorem decode_failure_causes_collapse_to_none :
    (tBadSig.key ≠ "k" ∧ ¬ tBadSig.claims.exp < 100 ∧ tBadSig.claims.sub = some "s") ∧
    (tExpired.key = "k" ∧ tExpired.claims.exp < 100 ∧ tExpired.claims.sub = some "s") ∧
    (tNoSub.key = "k" ∧ ¬ tNoSub.claims.exp < 100 ∧ tNoSub.claims.sub = none) ∧
    decode_access_token tBadSig 100 "k" = none ∧
    decode_access_token tExpired 100 "k" = none ∧
    decode_access_token tNoSub 100 "k" = none := by
  refine ⟨by decide, by decide, by decide, by decide, by decide, by decide⟩

/-- Claim C4 amended: token verification is total and returns a typed optional
result — `none` exactly when the signature does not match, or expiry has
passed, or the `sub` claim is absent (or empty) — and otherwise returns the
payload; but the three failure causes all map to the same `none` and are not
distinguishable in the returned value. -/
theorem decode_access_token_total_spec (t : Token) (now : Nat) (key : String) :
    (decode_access_token t now key = none ↔
      (t.key ≠ key ∨ t.claims.exp < now ∨ pyTruthy t.claims.sub = false)) ∧
    (decode_access_token t now key = none ∨
      decode_access_token t now key = some t.claims) := by
  unfold decode_access_token jwtDecode
  by_cases hk : t.key = key
  · by_cases he : t.claims.exp < now
    · simp [hk, he]
    · by_cases hs : pyTruthy t.claims.sub
      · simp [hk, he, hs]
      · simp [hk, he, hs]
  · simp [hk]

/-- If `x` is a member of `l` satisfying `p` and every member satisfying `p`
equals `x`, the scan `l.find? p` returns exactly `x`. -/
theorem find_first_of_unique {α : Type} (p : α → Bool) (l : List α) (x : α)
    (hx : x ∈ l) (hpx : p x = true) (huniq : ∀ y ∈ l, p y = true → y = x) :
    l.find? p = some x := by
  induction l with
  | nil => cases hx
  | cons a l ih =>
    by_cases ha : p a = true
    · have hax : a = x := huniq a (List.mem_cons_self a l) ha
      subst hax
      simp [List.find?, ha]
    · have hxl : x ∈ l := by
        rcases List.mem_cons.mp hx with h | h
        · exact absurd (h ▸ hpx) ha
        · exact h
      simp only [List.find?, ha]
      exact ih hxl (fun y hy hpy => huniq y (List.mem_cons_of_mem a hy) hpy)

/-- Claim C6: presenting the code of an attempt whose expiry has passed
(`now > expires`, where `expires = issuedAt + 600`) makes `verify_code` fail
with the 400 "Code expiré" error AND, as a side effect of that same
rejection, delete the attempt from the registry: the resulting registry has
no entry for that identifier, and the same code presented again is no longer
resolvable (it now fails with "Code invalide"). The code is assumed to
identify the attempt uniquely (random codes; spec section 4.4 documents a
collision as an accepted risk). -/
theorem verify_code_expired_rejects_and_deletes
    (r : Registry) (id : String) (e : Entry) (now : Nat)
    (hmem : (id, e) ∈ r)
    (hid : id ≠ "")
    (hexp : e.expires < now)
    (huniq : ∀ p ∈ r, p.2.code = e.code → p = (id, e)) :
    verify_code r e.code now = (dictPop r id, .error ⟨400, "Code expiré"⟩) ∧
    (∀ p ∈ (verify_code r e.code now).1, p.1 ≠ id) ∧
    (verify_code (verify_code r e.code now).1 e.code now).2 =
      .error ⟨400, "Code invalide"⟩ := by
  have hfind : r.find? (fun p => p.2.code == e.code) = some (id, e) :=
    find_first_of_unique _ r (id, e) hmem (by simp)
      (fun y hy hpy => huniq y hy (by simpa using hpy))
  have hstep : verify_code r e.code now = (dictPop r id, .error ⟨400, "Code expiré"⟩) := by
    simp [verify_code, hfind, hid, hexp]
  refine ⟨hstep, ?_, ?_⟩
  · intro p hp
    rw [hstep] at hp
    simp only [dictPop, List.mem_filter] at hp
    simpa using hp.2
  · rw [hstep]
    have hnone : (dictPop r id).find? (fun p => p.2.code == e.code) = none := by
      refine List.find?_eq_none.mpr ?_
      intro p hp
      simp only [dictPop, List.mem_filter] at hp
      intro hcode
      have := huniq p hp.1 (by simpa using hcode)
      have : p.1 = id := by rw [this]
      simp [this] at hp
    simp [verify_code, hnone]

/-- An expired pending attempt for `a@x.com`. -/
def rExp : Registry := [("a@x.com", { code := "111111", expires := 600, verified := false })]

/-- Witness for C6: the expired attempt `rExp` at time 700 — `verify_code`
fails "Code expiré", empties the registry, and the code no longer resolves. -/
theorem verify_code_expired_rejects_and_deletes_witness :
    verify_code rExp "111111" 700 = (dictPop rExp "a@x.com", .error ⟨400, "Code expiré"⟩) ∧
    (∀ p ∈ (verify_code rExp "111111" 700).1, p.1 ≠ "a@x.com") ∧
    (verify_code (verify_code rExp "111111" 700).1 "111111" 700).2 =
      .error ⟨400, "Code invalide"⟩ :=
  verify_code_expired_rejects_and_deletes rExp "a@x.com"
    { code := "111111", expires := 600, verified := false } 700
    (by decide) (by decide) (by decide) (by decide)

/-- Claim C7: a code matching no stored attempt makes `verify_code` fail with
the 400 "Code invalide" error and return the registry exactly unchanged — the
same list, so no attempt is added, removed, or modified. -/
theorem verify_code_unknown_code_frame
    (r : Registry) (code : String) (now : Nat)
    (h : ∀ p ∈ r, p.2.code ≠ code) :
    verify_code r code now = (r, .error ⟨400, "Code invalide"⟩) := by
  have hnone : r.find? (fun p => p.2.code == code) = none :=
    List.find?_eq_none.mpr (fun p hp => by simpa using h p hp)
  simp [verify_code, hnone]

/-- Witness for C7: the unknown code `999999` against a registry holding one
attempt — rejected, registry returned as-is. -/
theorem verify_code_unknown_code_frame_witness :
    verify_code rExp "999999" 5 = (rExp, .error ⟨400, "Code invalide"⟩) :=
  verify_code_unknown_code_frame rExp "999999" 5 (by decide)

/-- Claim C9: a `login` whose identifier resolves to no account and a `login`
whose identifier resolves to an account but whose password fails the hash
check return literally the same value: the same error kind (`LoginResult.err`),
status (401) and message, so the response does not reveal whether the
identifier exists. -/
theorem login_errors_indistinguishable
    (db : List User) (id1 pw1 id2 pw2 : String) (u : User)
    (now ttl : Nat) (key : String)
    (h1 : get_user_by_identifier db id1 = none)
    (h2 : get_user_by_identifier db id2 = some u)
    (h3 : verify_password pw2 u.hashed_password = false) :
    login db id1 pw1 now ttl key = .err ⟨401, "Identifiant ou mot de passe incorrect"⟩ ∧
    login db id2 pw2 now ttl key = .err ⟨401, "Identifiant ou mot de passe incorrect"⟩ ∧
    login db id1 pw1 now ttl key = login db id2 pw2 now ttl key := by
  refine ⟨?_, ?_, ?_⟩ <;> simp [login, h1, h2, h3]

/-- Witness for C9: against `dbA`, the unknown identifier `nobody@x.com` and
the stored identifier `a@x.com` with a wrong password yield equal responses. -/
theorem login_errors_indistinguishable_witness :
    login dbA "nobody@x.com" "whatever" 0 3600 "k" =
      .err ⟨401, "Identifiant ou mot de passe incorrect"⟩ ∧
    login dbA "a@x.com" "wrongpass" 0 3600 "k" =
      .err ⟨401, "Identifiant ou mot de passe incorrect"⟩ ∧
    login dbA "nobody@x.com" "whatever" 0 3600 "k" =
      login dbA "a@x.com" "wrongpass" 0 3600 "k" :=
  login_errors_indistinguishable dbA "nobody@x.com" "whatever" "a@x.com" "wrongpass"
    uA 0 3600 "k" (by decide) (by decide) (by decide)

/-- In-place dict update (`dictSet` on an existing key) does not change the key
sequence of the registry. -/
theorem keys_map_update (r : Registry) (k : String) (v : Entry) :
    (r.map (fun p => if p.1 == k then (k, v) else p)).map Prod.fst = r.map Prod.fst := by
  induction r with
  | nil => rfl
  | cons a r ih =>
    simp only [List.map_cons]
    rw [ih]
    by_cases ha : a.1 == k
    · have hak : a.1 = k := by simpa using ha
      simp [ha, hak]
    · simp [ha]

/-- Update `dictSet` preserves distinctness of the registry keys. -/
theorem nodup_keys_dictSet (r : Registry) (k : String) (v : Entry)
    (h : (r.map Prod.fst).Nodup) : ((dictSet r k v).map Prod.fst).Nodup := by
  unfold dictSet
  by_cases hc : r.any (fun p => p.1 == k) = true
  · rw [if_pos hc, keys_map_update]
    exact h
  · have hk : k ∉ r.map Prod.fst := by
      intro hmem
      rcases List.mem_map.mp hmem with ⟨p, hp, hpk⟩
      exact hc (List.any_eq_true.mpr ⟨p, hp, by simp [hpk]⟩)
    rw [if_neg hc]
    have hmaps : (r ++ [(k, v)]).map Prod.fst = r.map Prod.fst ++ [k] := by simp
    rw [hmaps]
    exact List.Nodup.append h (List.nodup_singleton k)
      (fun a ha hb => by simp at hb; subst hb; exact hk ha)

/-- Any filtering of the registry (`dictPop`, the expiry sweep) preserves
distinctness of the keys. -/
theorem nodup_keys_filter (r : Registry) (q : String × Entry → Bool)
    (h : (r.map Prod.fst).Nodup) : ((r.filter q).map Prod.fst).Nodup :=
  h.sublist ((r.filter_sublist).map Prod.fst)

/-- The registry `forgot_password` leaves behind is the input registry or a
`dictSet` of it. -/
theorem forgot_password_state (db : List User) (r : Registry) (id code : String)
    (now : Nat) :
    (forgot_password db r id code now).1 = r ∨
    (forgot_password db r id code now).1 =
      dictSet r id { code := code, expires := now + 600, verified := false } := by
  unfold forgot_password
  cases get_user_by_identifier db id <;> simp

/-- The registry `verify_code` leaves behind is the input registry, a
`dictPop` of it, or a `dictSet` of it. -/
theorem verify_code_state (r : Registry) (code : String) (now : Nat) :
    (verify_code r code now).1 = r ∨
    (∃ id, (verify_code r code now).1 = dictPop r id) ∨
    (∃ id e, (verify_code r code now).1 = dictSet r id e) := by
  unfold verify_code
  rcases hf : r.find? (fun p => p.2.code == code) with _ | ⟨id, e⟩ <;> rw [hf]
  · left; rfl
  · by_cases hid : id = ""
    · left; simp [hid]
    · by_cases hex : e.expires < now
      · exact Or.inr (Or.inl ⟨id, by simp [hid, hex]⟩)
      · exact Or.inr (Or.inr ⟨id, { e with verified := true }, by simp [hid, hex]⟩)

/-- The registry `reset_password` leaves behind is the input registry or a
`dictPop` of it. -/
theorem reset_password_state (r : Registry) (db : List User) (pw : String)
    (now : Nat) :
    (reset_password r db pw now).1 = r ∨
    ∃ id, (reset_password r db pw now).1 = dictPop r id := by
  unfold reset_password
  rcases hf : r.find? (fun p => p.2.verified) with _ | ⟨id, e⟩ <;> rw [hf]
  · left; rfl
  · by_cases hid : id = ""
    · left; simp [hid]
    · by_cases hex : e.expires < now
      · exact Or.inr ⟨id, by simp [hid, hex]⟩
      · rcases hu : get_user_by_identifier db id with _ | u
        · left; simp [hid, hex, hu]
        · exact Or.inr ⟨id, by simp [hid, hex, hu]⟩

/-- Key distinctness is an invariant of every reachable registry state: the
registry is genuinely a map keyed by identifier, so at most one attempt per
identifier ever exists. -/
theorem reachable_nodup_keys (db : List User) (r : Registry) (h : Reachable db r) :
    (r.map Prod.fst).Nodup := by
  induction h with
  | init => simp
  | forgot r id code now _ ih =>
    rcases forgot_password_state db r id code now with h1 | h1 <;> rw [h1]
    · exact ih
    · exact nodup_keys_dictSet r id _ ih
  | verify r code now _ ih =>
    rcases verify_code_state r code now with h1 | ⟨id, h1⟩ | ⟨id, e, h1⟩ <;> rw [h1]
    · exact ih
    · exact nodup_keys_filter r _ ih
    · exact nodup_keys_dictSet r id e ih
  | reset r pw now _ ih =>
    rcases reset_password_state r db pw now with h1 | ⟨id, h1⟩ <;> rw [h1]
    · exact ih
    · exact nodup_keys_filter r _ ih
  | sweep r now _ ih => exact nodup_keys_filter r _ ih

/-- With distinct keys, at most one registry entry carries any given key. -/
theorem length_filter_key_le_one (r : Registry) (h : (r.map Prod.fst).Nodup)
    (id : String) : (r.filter (fun p => p.1 == id)).length ≤ 1 := by
  induction r with
  | nil => simp
  | cons a r ih =>
    simp only [List.map_cons, List.nodup_cons] at h
    by_cases ha : a.1 == id
    · have hempty : r.filter (fun p => p.1 == id) = [] := by
        refine List.filter_eq_nil_iff.mpr ?_
        intro p hp hpk
        have hpid : p.1 = id := by simpa using hpk
        have haid : a.1 = id := by simpa using ha
        exact h.1 (haid ▸ hpid ▸ List.mem_map_of_mem Prod.fst hp)
      simp [List.filter, ha, hempty]
    · simpa [List.filter, ha] using ih h.2

/-- Restricting a key filter further (to verified entries) can only shrink it. -/
theorem length_filter_verified_le (r : Registry) (id : String) :
    (r.filter (fun p => p.1 == id && p.2.verified)).length ≤
      (r.filter (fun p => p.1 == id)).length := by
  induction r with
  | nil => simp
  | cons a r ih =>
    by_cases h1 : a.1 == id <;> by_cases h2 : a.2.verified <;>
      simp [List.filter, h1, h2] <;> omega

/-- Registry state after: request a code for `a@x.com` (code `111111`, t = 0),
request a code for `b@x.com` (code `222222`, t = 0), verify `111111` (t = 10),
verify `222222` (t = 10) — all against the users table `dbAB`. -/
def twoVerifiedReg : Registry :=
  (verify_code
    (verify_code
      (forgot_password dbAB
        (forgot_password dbAB [] "a@x.com" "111111" 0).1
        "b@x.com" "222222" 0).1
      "111111" 10).1
    "222222" 10).1

/-- Claim C5 counterexample: a state reachable by two `forgot_password` calls
followed by two `verify_code` calls holds TWO attempts with `verified = true`
at once (one per identifier), so "at most one reset attempt in the registry
has verified = true" fails, and `reset_password` would face two candidates. -/
theorem two_verified_attempts_reachable :
    Reachable dbAB twoVerifiedReg ∧
    (twoVerifiedReg.filter (fun p => p.2.verified)).length = 2 := by
  constructor
  · exact Reachable.verify _ "222222" 10
      (Reachable.verify _ "111111" 10
        (Reachable.forgot _ "b@x.com" "222222" 0
          (Reachable.forgot _ "a@x.com" "111111" 0 Reachable.init)))
  · decide

/-- Claim C5 amended: in every reachable registry state, at most one attempt
PER IDENTIFIER has `verified = true` (the registry is a map keyed by
identifier, so each identifier holds at most one attempt); attempts for
distinct identifiers can be verified simultaneously, and the scan of `resetPassword`
then takes the first candidate in insertion order. -/
theorem reachable_at_most_one_verified_per_identifier
    (db : List User) (r : Registry) (h : Reachable db r) (id : String) :
    (r.filter (fun p => p.1 == id && p.2.verified)).length ≤ 1 :=
  le_trans (length_filter_verified_le r id)
    (length_filter_key_le_one r (reachable_nodup_keys db r h) id)

/-- Witness for the amended C5: the reachable two-verified state still has at
most one verified attempt for the single identifier `a@x.com`. -/
theorem reachable_at_most_one_verified_per_identifier_witness :
    (twoVerifiedReg.filter (fun p => p.1 == "a@x.com" && p.2.verified)).length ≤ 1 :=
  reachable_at_most_one_verified_per_identifier dbAB twoVerifiedReg
    (Reachable.verify _ "222222" 10
      (Reachable.verify _ "111111" 10
        (Reachable.forgot _ "b@x.com" "222222" 0
          (Reachable.forgot _ "a@x.com" "111111" 0 Reachable.init))))
    "a@x.com"

/-- Claim C8: from a registry holding no attempt, the sequence
`forgot_password(id)`, `verify_code(code)`, `reset_password(newPassword)`
succeeds exactly once — the request is acknowledged, verification returns the
identifier, the reset succeeds and deletes the attempt (the registry is empty
again) — and a second `reset_password` issued afterwards without a new
`verify_code` fails with the 400 "no verified attempt" error. Hypotheses: the
identifier resolves to a user and both subsequent calls happen within the
10-minute window. -/
theorem reset_flow_succeeds_exactly_once
    (db : List User) (u : User) (id code pw pw2 : String)
    (t0 t1 t2 t3 : Nat)
    (hu : get_user_by_identifier db id = some u)
    (hid : id ≠ "")
    (h1 : t1 ≤ t0 + 600) (h2 : t2 ≤ t0 + 600) :
    (forgot_password db [] id code t0).2 = .ok "Code de réinitialisation envoyé" ∧
    (verify_code (forgot_password db [] id code t0).1 code t1).2 = .ok id ∧
    (reset_password (verify_code (forgot_password db [] id code t0).1 code t1).1
        db pw t2).2.2 = .ok "Mot de passe réinitialisé avec succès" ∧
    (reset_password (verify_code (forgot_password db [] id code t0).1 code t1).1
        db pw t2).1 = [] ∧
    (reset_password
        (reset_password (verify_code (forgot_password db [] id code t0).1 code t1).1
          db pw t2).1
        (reset_password (verify_code (forgot_password db [] id code t0).1 code t1).1
          db pw t2).2.1
        pw2 t3).2.2 =
      .error ⟨400, "Aucun code vérifié trouvé. Veuillez d\x27abord vérifier votre code."⟩ := by
  have hforgot : forgot_password db [] id code t0 =
      ([(id, { code := code, expires := t0 + 600, verified := false })],
       .ok "Code de réinitialisation envoyé") := by
    simp [forgot_password, hu, dictSet]
  have hnexp1 : ¬ ((t0 + 600 : Nat) < t1) := by omega
  have hverify :
      verify_code [(id, { code := code, expires := t0 + 600, verified := false })] code t1 =
      ([(id, { code := code, expires := t0 + 600, verified := true })], .ok id) := by
    simp [verify_code, List.find?, hid, hnexp1, dictSet]
  have hnexp2 : ¬ ((t0 + 600 : Nat) < t2) := by omega
  have hreset :
      reset_password [(id, { code := code, expires := t0 + 600, verified := true })] db pw t2 =
      ([], db.map (fun v => if v.id == u.id then
          { v with hashed_password := hash_password pw } else v),
       .ok "Mot de passe réinitialisé avec succès") := by
    simp [reset_password, List.find?, hid, hnexp2, hu, dictPop]
  have hreset2 : ∀ db2 : List User, (reset_password [] db2 pw2 t3).2.2 =
      .error ⟨400, "Aucun code vérifié trouvé. Veuillez d\x27abord vérifier votre code."⟩ := by
    intro db2
    simp [reset_password, List.find?]
  refine ⟨?_, ?_, ?_, ?_, ?_⟩ <;>
    simp [hforgot, hverify, hreset, hreset2]

/-- Witness for C8: the full flow for `a@x.com` against `dbA` with code
`123456` at times 0, 1, 2, 3. -/
theorem reset_flow_succeeds_exactly_once_witness :
    (forgot_password dbA [] "a@x.com" "123456" 0).2 =
      .ok "Code de réinitialisation envoyé" ∧
    (verify_code (forgot_password dbA [] "a@x.com" "123456" 0).1 "123456" 1).2 =
      .ok "a@x.com" ∧
    (reset_password
        (verify_code (forgot_password dbA [] "a@x.com" "123456" 0).1 "123456" 1).1
        dbA "newpass1" 2).2.2 = .ok "Mot de passe réinitialisé avec succès" ∧
    (reset_password
        (verify_code (forgot_password dbA [] "a@x.com" "123456" 0).1 "123456" 1).1
        dbA "newpass1" 2).1 = [] ∧
    (reset_password
        (reset_password
          (verify_code (forgot_password dbA [] "a@x.com" "123456" 0).1 "123456" 1).1
          dbA "newpass1" 2).1
        (reset_password
          (verify_code (forgot_password dbA [] "a@x.com" "123456" 0).1 "123456" 1).1
          dbA "newpass1" 2).2.1
        "newpass2" 3).2.2 =
      .error ⟨400, "Aucun code vérifié trouvé. Veuillez d\x27abord vérifier votre code."⟩ :=
  reset_flow_succeeds_exactly_once dbA uA "a@x.com" "123456" "newpass1" "newpass2"
    0 1 2 3 (by decide) (by decide) (by decide) (by decide)

/-- Claim C10: any token minted by `create_access_token` from a payload
carrying a `user_id` — as both `login` and `social_login` do — has its `sub`
claim rewritten to the decimal string of the numeric account id; `get_me`
then interprets that `sub` as an email-or-phone identifier, so (the token not
being blacklisted) it fails with 404 "Utilisateur introuvable" exactly when
no account has an email or phone field textually equal to that decimal
string. -/
theorem get_me_resolves_sub_as_identifier
    (data : Claims) (uid : Nat) (now ttl : Nat) (key : String)
    (bl : List Token) (db : List User)
    (hdata : data.user_id = some uid)
    (hbl : create_access_token data now ttl key ∉ bl) :
    (create_access_token data now ttl key).claims.sub = some (toString uid) ∧
    ((get_me bl db (create_access_token data now ttl key)
        (create_access_token data now ttl key).claims =
      .error ⟨404, "Utilisateur introuvable"⟩) ↔
      get_user_by_identifier db (toString uid) = none) := by
  have hsub : (create_access_token data now ttl key).claims.sub = some (toString uid) := by
    simp [create_access_token, hdata]
  refine ⟨hsub, ?_⟩
  unfold get_me
  rw [if_neg hbl, hsub]
  cases hlook : get_user_by_identifier db (toString uid) with
  | none => simp [hlook]
  | some v => simp [hlook]

/-- Witness for C10: the token issued by `login` for `uA` (id 1, email
`a@x.com`) carries `sub = "1"`, and since no account of `dbA` has `"1"` as
email or phone, `get_me` answers 404 for it. -/
theorem get_me_resolves_sub_as_identifier_witness :
    ((create_access_token
        { sub := some "a@x.com", role := some "user", user_id := some 1, exp := 0 }
        0 3600 "k").claims.sub = some (toString (1 : Nat))) ∧
    ((get_me [] dbA
        (create_access_token
          { sub := some "a@x.com", role := some "user", user_id := some 1, exp := 0 }
          0 3600 "k")
        (create_access_token
          { sub := some "a@x.com", role := some "user", user_id := some 1, exp := 0 }
          0 3600 "k").claims =
      .error ⟨404, "Utilisateur introuvable"⟩) ↔
      get_user_by_identifier dbA (toString (1 : Nat)) = none) :=
  get_me_resolves_sub_as_identifier
    { sub := some "a@x.com", role := some "user", user_id := some 1, exp := 0 }
    1 0 3600 "k" [] dbA rfl (by simp)
